import Mathlib

/-!
Verification of the hugging-local-buddy setup-assistant core.

The repository is a client-side form that maps a device/language
specification to a hard-coded "setup bundle".  This file gives a shallow
embedding of the three source files:

* the page module (`analyzeRepository` with its inner `getLanguageConfig`
  switch and the post-selection computed fields),
* `SetupForm.tsx` (form state, the language-change handler, `isFormValid`,
  `handleSubmit`, submit-button disabling),
* `SetupGuide.tsx` (clone-directory derivation and `copyToClipboard`).

The simulated 2-second analysis delay has no observable effect on the
returned value, so `analyzeRepository` is embedded as a pure function.
The browser clipboard is embedded as a boolean capability outcome, and the
toast system as a list of emitted messages, following the spec's
capability treatment of both.
-/

/-- Device specification collected by the form (`DeviceSpecs` interface). -/
structure DeviceSpecs where
  language : String
  version : String
  os : String
  gpu : String
  ram : String
  packageManager : String
  docker : Bool
deriving DecidableEq

/-- One alternative-service suggestion (`alternatives` array entries). -/
structure AltSuggestion where
  name : String
  description : String
  url : Option String
deriving DecidableEq

/-- The per-language part of the bundle returned by `getLanguageConfig`. -/
structure LanguageConfig where
  techStack : List String
  venvCommand : String
  installCommand : String
  runCommand : String
  accessUrl : String
  envSetup : List String
  troubleshooting : List String
deriving DecidableEq

/-- The full `mockResult` object returned by `analyzeRepository`
(the spec's `SetupBundle`). -/
structure AnalysisResult where
  techStack : List String
  venvCommand : String
  installCommand : String
  runCommand : String
  accessUrl : String
  envSetup : List String
  troubleshooting : List String
  compatibility : String
  estimatedTime : String
  modelSize : String
  alternatives : List AltSuggestion
deriving DecidableEq

/-- The `getLanguageConfig` switch on `specs.language` (source lines
223-349 of the page module): five defined cases plus a default case. -/
def getLanguageConfig (specs : DeviceSpecs) : LanguageConfig :=
  match specs.language with
  | "python" =>
    { techStack := ["Transformers", "Gradio", "PyTorch", "NumPy"]
      venvCommand :=
        if specs.packageManager == "conda" then
          "conda create -n hf-app python=" ++ specs.version ++ "\nconda activate hf-app"
        else
          "python -m venv hf-app\nsource hf-app/bin/activate  # On Windows: hf-app\\Scripts\\activate"
      installCommand :=
        if specs.packageManager == "conda" then
          "conda install pytorch transformers gradio -c pytorch -c huggingface"
        else
          "pip install torch transformers gradio accelerate"
      runCommand := "python app.py"
      accessUrl := "http://localhost:7860"
      envSetup :=
        ["Ensure you have at least 4GB of free disk space for models",
         "Set CUDA_VISIBLE_DEVICES if you have multiple GPUs",
         "Configure Hugging Face token if using gated models",
         "Install Git LFS for large model files if needed"]
      troubleshooting :=
        ["If CUDA out of memory, try reducing batch size or model precision",
         "For slow downloads, consider using a mirror or cache",
         "On Windows, you might need Visual Studio Build Tools",
         "For M1/M2 Macs, use MPS backend for acceleration"] }
  | "javascript" =>
    { techStack := ["Transformers.js", "Node.js", "Express", "TensorFlow.js"]
      venvCommand :=
        if specs.packageManager == "yarn" then "yarn init -y" else "npm init -y"
      installCommand :=
        if specs.packageManager == "yarn" then
          "yarn add @huggingface/transformers @huggingface/hub express"
        else
          "npm install @huggingface/transformers @huggingface/hub express"
      runCommand := "node server.js"
      accessUrl := "http://localhost:3000"
      envSetup :=
        ["Ensure Node.js " ++ specs.version ++ " is installed",
         "Install dependencies with your package manager",
         "Configure environment variables in .env file",
         "Set up CORS if accessing from browser"]
      troubleshooting :=
        ["If WebGPU not available, models will fallback to CPU",
         "Large models may require significant RAM",
         "Use model quantization for better performance",
         "Check browser compatibility for WebGL/WebGPU"] }
  | "r" =>
    { techStack := ["reticulate", "torch", "transformers (via Python)", "Shiny"]
      venvCommand := "# R environment setup\ninstall.packages(\x27renv\x27)\nrenv::init()"
      installCommand :=
        "install.packages(c(\"reticulate\", \"shiny\"))\nreticulate::py_install(c(\"torch\", \"transformers\"))"
      runCommand := "Rscript app.R"
      accessUrl := "http://localhost:3838"
      envSetup :=
        ["Install R and required packages",
         "Configure reticulate to use Python environment",
         "Install Python dependencies via reticulate",
         "Set up Shiny server for web interface"]
      troubleshooting :=
        ["Ensure Python and R can communicate via reticulate",
         "Install system dependencies for torch compilation",
         "Configure PATH variables for Python/R integration",
         "Use virtual environments to avoid conflicts"] }
  | "julia" =>
    { techStack := ["MLJ.jl", "Transformers.jl", "Flux.jl", "PlutoUI"]
      venvCommand := "julia --project=.\nusing Pkg\nPkg.activate(\".\")"
      installCommand := "Pkg.add([\"MLJ\", \"Transformers\", \"Flux\", \"PlutoUI\"])"
      runCommand := "julia app.jl"
      accessUrl := "http://localhost:8000"
      envSetup :=
        ["Ensure Julia " ++ specs.version ++ " is installed",
         "Create and activate project environment",
         "Install required Julia packages",
         "Configure CUDA.jl for GPU support if available"]
      troubleshooting :=
        ["Precompile packages to reduce startup time",
         "Use BinaryBuilder.jl for system dependencies",
         "Configure JULIA_NUM_THREADS for parallelization",
         "Check CUDA installation for GPU acceleration"] }
  | "rust" =>
    { techStack := ["Candle", "Tokenizers", "Axum", "Serde"]
      venvCommand := "cargo init hf-app\ncd hf-app"
      installCommand := "cargo add candle-core candle-nn tokenizers axum serde"
      runCommand := "cargo run"
      accessUrl := "http://localhost:8080"
      envSetup :=
        ["Ensure Rust " ++ specs.version ++ " is installed",
         "Initialize Cargo project",
         "Add required dependencies to Cargo.toml",
         "Configure features for CUDA support if needed"]
      troubleshooting :=
        ["Compile with --release flag for better performance",
         "Install CUDA toolkit for GPU support",
         "Use cross-compilation for different targets",
         "Enable LTO for smaller binaries"] }
  | _ =>
    { techStack := ["Generic ML Framework"]
      venvCommand := "# Environment setup varies by language"
      installCommand := "# Install language-specific dependencies"
      runCommand := "# Run application"
      accessUrl := "http://localhost:8000"
      envSetup := ["Configure your development environment"]
      troubleshooting := ["Check documentation for language-specific issues"] }

/-- `analyzeRepository` (source lines 218-378): the simulated delay is
dropped (it does not affect the value); the per-language config is merged
with the computed `compatibility`, `estimatedTime`, `modelSize` and
`alternatives` fields. The `repoUrl` argument is kept to mirror the source
signature; the source never reads it. -/
def analyzeRepository (_repoUrl : String) (specs : DeviceSpecs) : AnalysisResult :=
  let config := getLanguageConfig specs
  { techStack := config.techStack
    venvCommand := config.venvCommand
    installCommand := config.installCommand
    runCommand := config.runCommand
    accessUrl := config.accessUrl
    envSetup := config.envSetup
    troubleshooting := config.troubleshooting
    compatibility := "95%"
    estimatedTime :=
      if specs.language == "rust" then "10-15 min"
      else if specs.language == "julia" then "8-12 min"
      else "5-10 min"
    modelSize := if specs.language == "javascript" then "200 MB" else "1.2 GB"
    alternatives :=
      [{ name := if specs.language == "python" then "Google Colab" else "CodeSandbox"
         description :=
           if specs.language == "python" then "Run in the cloud with free GPU access"
           else "Run in browser environment"
         url :=
           some (if specs.language == "python" then "https://colab.research.google.com"
                 else "https://codesandbox.io") },
       { name := "Hugging Face Spaces"
         description := "Deploy directly on Hugging Face infrastructure"
         url := some "https://huggingface.co/spaces" },
       { name := "Docker Container"
         description := "Use pre-built container with all dependencies"
         url := none }] }

/-! ## SetupForm.tsx -/

/-- Component state of `SetupForm`: the `repoUrl` useState plus the
`specs` useState record. -/
structure FormState where
  repoUrl : String
  specs : DeviceSpecs
deriving DecidableEq

/-- The `onValueChange` handler of the language select (SetupForm.tsx
line 346): spreads the previous specs, sets `language` to the chosen
value and resets `version` and `packageManager` to the empty string. -/
def handleLanguageChange (st : FormState) (value : String) : FormState :=
  { st with specs :=
      { st.specs with language := value, version := "", packageManager := "" } }

/-- `isFormValid` (SetupForm.tsx line 316): the JS truthiness conjunction
`repoUrl && specs.language && specs.version && specs.os && specs.ram`,
where a string is truthy exactly when it is non-empty. -/
def isFormValid (st : FormState) : Bool :=
  !(st.repoUrl == "") && !(st.specs.language == "") && !(st.specs.version == "")
    && !(st.specs.os == "") && !(st.specs.ram == "")

/-- The submit button's `disabled` prop (SetupForm.tsx line 490):
`!isFormValid || isLoading`. -/
def submitButtonDisabled (st : FormState) (isLoading : Bool) : Bool :=
  !isFormValid st || isLoading

/-- `handleSubmit` (SetupForm.tsx lines 235-240): calls
`onAnalyze(repoUrl, specs)` only when the same five truthiness checks
pass; the embedding returns the arguments of that call, or `none` when
the analyzer is not invoked. -/
def handleSubmit (st : FormState) : Option (String × DeviceSpecs) :=
  if !(st.repoUrl == "") && !(st.specs.language == "") && !(st.specs.version == "")
      && !(st.specs.os == "") && !(st.specs.ram == "") then
    some (st.repoUrl, st.specs)
  else
    none

/-! ## SetupGuide.tsx -/

/-- JS `url.split(sep)` for a one-character separator, on character
lists: always returns at least one (possibly empty) segment. -/
def splitOnChar (sep : Char) : List Char → List (List Char)
  | [] => [[]]
  | c :: cs =>
    if c = sep then [] :: splitOnChar sep cs
    else
      match splitOnChar sep cs with
      | [] => [[c]]
      | h :: t => (c :: h) :: t

/-- JS `s.replace(pat, "")` for a plain (non-regex) pattern: removes the
first occurrence of `pat`, scanning left to right; returns `s` unchanged
when `pat` does not occur. -/
def replaceFirstAux (pat : List Char) : List Char → List Char
  | [] => []
  | c :: cs =>
    if pat.isPrefixOf (c :: cs) then (c :: cs).drop pat.length
    else c :: replaceFirstAux pat cs

/-- The directory name used in the synthesized clone command
(SetupGuide.tsx line 130): `repoUrl.split('/').pop()?.replace('.git', '')
|| 'repo'`. JS `pop` takes the last segment (split never yields an empty
array), `replace` removes the first occurrence of ".git", and `||` falls
back to "repo" exactly when the resulting string is empty. -/
def cloneDirName (repoUrl : String) : String :=
  let seg : List Char := ((splitOnChar '/' repoUrl.data).getLast?).getD []
  let stripped : List Char := replaceFirstAux ".git".data seg
  if stripped = [] then "repo" else ⟨stripped⟩

/-- The full clone command of the "Clone Repository" code block
(SetupGuide.tsx line 130). -/
def cloneCommand (repoUrl : String) : String :=
  "git clone " ++ repoUrl ++ "\ncd " ++ cloneDirName repoUrl

/-- A toast notification as emitted through `useToast`. -/
structure ToastMsg where
  title : String
  description : String
  destructive : Bool
deriving DecidableEq

/-- Component state of `SetupGuide` relevant to copying: the
`copiedCommand` useState. -/
structure GuideState where
  copiedCommand : Option String
deriving DecidableEq

/-- The callback scheduled by `setTimeout(() => setCopiedCommand(null),
2000)`: clears the copied indicator. -/
def clearCopiedTimeout (_st : GuideState) : GuideState :=
  { copiedCommand := none }

/-- `copyToClipboard` (SetupGuide.tsx lines 29-45), with the browser
clipboard embedded as a boolean capability outcome `clipboardOk`
(`navigator.clipboard.writeText` resolving or rejecting). Returns the
state after the synchronous part of the handler, the toasts emitted, and
the delay in milliseconds of the scheduled clear callback (if any). -/
def copyToClipboard (clipboardOk : Bool) (_text commandType : String)
    (st : GuideState) : GuideState × List ToastMsg × Option Nat :=
  if clipboardOk then
    ({ copiedCommand := some commandType },
     [{ title := "Copied to clipboard",
        description := commandType ++ " command copied successfully",
        destructive := false }],
     some 2000)
  else
    (st,
     [{ title := "Failed to copy",
        description := "Could not copy to clipboard",
        destructive := true }],
     none)

/-! ## Spec-side definitions

Definitions written from the spec's words, for comparison with the
embeddings above. -/

/-- Directory-name derivation as the spec states it: take the URL's final
path segment, strip a *trailing* ".git" suffix, and default to "repo"
when the URL has no (non-empty) final path segment. -/
def cloneDirNameSpecStated (repoUrl : String) : String :=
  let seg : List Char := ((splitOnChar '/' repoUrl.data).getLast?).getD []
  if seg = [] then "repo"
  else if ".git".data.isSuffixOf seg then ⟨seg.take (seg.length - 4)⟩
  else ⟨seg⟩

/-- Index of the leftmost occurrence of `pat` in `s`, if any: the
smallest position at which `pat` is a prefix of the remaining suffix. -/
def firstMatchIdx (pat : List Char) : List Char → Option Nat
  | [] => if pat.isPrefixOf ([] : List Char) then some 0 else none
  | c :: cs =>
    if pat.isPrefixOf (c :: cs) then some 0
    else (firstMatchIdx pat cs).map (· + 1)

/-- Removal of the first occurrence of `pat` from `s`, specified through
the leftmost match index: everything before the match, followed by
everything after it; `s` unchanged when there is no match. -/
def removeFirstMatch (pat s : List Char) : List Char :=
  match firstMatchIdx pat s with
  | none => s
  | some i => s.take i ++ s.drop (i + pat.length)

/-- Directory-name derivation as the amended claim states it: take the
final path segment, remove the first occurrence of ".git" anywhere in it,
and default to "repo" when the resulting name is empty. -/
def cloneDirNameSpecAmended (repoUrl : String) : String :=
  let seg : List Char := ((splitOnChar '/' repoUrl.data).getLast?).getD []
  let stripped : List Char := removeFirstMatch ".git".data seg
  if stripped = [] then "repo" else ⟨stripped⟩

/-! ## Helper lemmas -/

/-- The scan-based removal of a first occurrence agrees with the
leftmost-match-index specification of it. -/
theorem replaceFirstAux_eq_removeFirstMatch (pat : List Char) (s : List Char) :
    replaceFirstAux pat s = removeFirstMatch pat s := by
  induction s with
  | nil =>
    cases h : pat.isPrefixOf ([] : List Char) <;>
      simp [replaceFirstAux, removeFirstMatch, firstMatchIdx, h]
  | cons c cs ih =>
    by_cases h : pat.isPrefixOf (c :: cs)
    · simp [replaceFirstAux, removeFirstMatch, firstMatchIdx, h]
    · cases hidx : firstMatchIdx pat cs with
      | none =>
        have hcs : replaceFirstAux pat cs = cs := by
          rw [ih]; simp [removeFirstMatch, hidx]
        simp [replaceFirstAux, removeFirstMatch, firstMatchIdx, h, hidx, hcs]
      | some i =>
        have hcs : replaceFirstAux pat cs = cs.take i ++ cs.drop (i + pat.length) := by
          rw [ih]; simp [removeFirstMatch, hidx]
        have harith : i + 1 + pat.length = (i + pat.length) + 1 := by omega
        simp [replaceFirstAux, removeFirstMatch, firstMatchIdx, h, hidx, hcs, harith]

/-! ## Claim theorems -/

/-- Claim C1: `analyzeRepository` is total (the embedding is a plain
function), and for every input whose language is none of python,
javascript, r, julia, rust it returns the default-case generic
placeholder bundle: generic techStack, commented-out command strings, and
single-entry envSetup and troubleshooting lists. -/
theorem analyzeRepository_unknown_language_default (repoUrl : String)
    (specs : DeviceSpecs)
    (h : specs.language ∉ (["python", "javascript", "r", "julia", "rust"] : List String)) :
    (analyzeRepository repoUrl specs).techStack = ["Generic ML Framework"] ∧
    (analyzeRepository repoUrl specs).venvCommand = "# Environment setup varies by language" ∧
    (analyzeRepository repoUrl specs).installCommand = "# Install language-specific dependencies" ∧
    (analyzeRepository repoUrl specs).runCommand = "# Run application" ∧
    (analyzeRepository repoUrl specs).envSetup.length = 1 ∧
    (analyzeRepository repoUrl specs).troubleshooting.length = 1 := by
  simp only [List.mem_cons, List.not_mem_nil, or_false, not_or] at h
  obtain ⟨h1, h2, h3, h4, h5⟩ := h
  have hconf : getLanguageConfig specs =
      { techStack := ["Generic ML Framework"]
        venvCommand := "# Environment setup varies by language"
        installCommand := "# Install language-specific dependencies"
        runCommand := "# Run application"
        accessUrl := "http://localhost:8000"
        envSetup := ["Configure your development environment"]
        troubleshooting := ["Check documentation for language-specific issues"] } := by
    unfold getLanguageConfig
    split <;> simp_all
  simp [analyzeRepository, hconf]

theorem analyzeRepository_unknown_language_default_witness :
    (("cobol" : String) ∉ (["python", "javascript", "r", "julia", "rust"] : List String)) ∧
    (analyzeRepository "https://github.com/user/repo"
        ⟨"cobol", "85", "ubuntu", "none", "16gb", "make", false⟩).techStack =
      ["Generic ML Framework"] :=
  ⟨by decide,
   (analyzeRepository_unknown_language_default "https://github.com/user/repo"
      ⟨"cobol", "85", "ubuntu", "none", "16gb", "make", false⟩ (by decide)).1⟩

/-- Claim C2: with language python and packageManager conda, the bundle's
`venvCommand` contains the substring "conda create -n hf-app
python=<version>" where `<version>` is exactly the selected version. -/
theorem analyzeRepository_python_conda_venv (repoUrl : String) (specs : DeviceSpecs)
    (hl : specs.language = "python") (hp : specs.packageManager = "conda") :
    ∃ pre post : String,
      (analyzeRepository repoUrl specs).venvCommand =
        pre ++ ("conda create -n hf-app python=" ++ specs.version) ++ post := by
  refine ⟨"", "\nconda activate hf-app", ?_⟩
  obtain ⟨lang, ver, osv, gpuv, ramv, pmv, dkv⟩ := specs
  simp only at hl hp
  subst hl; subst hp
  simp [analyzeRepository, getLanguageConfig]

theorem analyzeRepository_python_conda_venv_witness :
    ∃ pre post : String,
      (analyzeRepository "https://github.com/user/repo"
          ⟨"python", "3.10", "ubuntu", "none", "16gb", "conda", false⟩).venvCommand =
        pre ++ ("conda create -n hf-app python=" ++ "3.10") ++ post :=
  analyzeRepository_python_conda_venv "https://github.com/user/repo"
    ⟨"python", "3.10", "ubuntu", "none", "16gb", "conda", false⟩ rfl rfl

/-- Claim C3: for each of the five defined languages, whatever the
version and package manager, the bundle has a non-empty techStack and a
non-empty runCommand. -/
theorem analyzeRepository_defined_language_nonempty (repoUrl : String)
    (specs : DeviceSpecs)
    (h : specs.language ∈ (["python", "javascript", "r", "julia", "rust"] : List String)) :
    (analyzeRepository repoUrl specs).techStack ≠ [] ∧
    (analyzeRepository repoUrl specs).runCommand ≠ "" := by
  obtain ⟨lang, ver, osv, gpuv, ramv, pmv, dkv⟩ := specs
  simp only [List.mem_cons, List.not_mem_nil, or_false] at h
  rcases h with h | h | h | h | h <;> subst h <;>
    refine ⟨?_, ?_⟩ <;> simp [analyzeRepository, getLanguageConfig]

theorem analyzeRepository_defined_language_nonempty_witness :
    (("rust" : String) ∈ (["python", "javascript", "r", "julia", "rust"] : List String)) ∧
    (analyzeRepository "https://github.com/user/repo"
        ⟨"rust", "1.75", "ubuntu", "none", "16gb", "cargo", false⟩).techStack ≠ [] :=
  ⟨by decide,
   (analyzeRepository_defined_language_nonempty "https://github.com/user/repo"
      ⟨"rust", "1.75", "ubuntu", "none", "16gb", "cargo", false⟩ (by decide)).1⟩

/-- Claim C4: `estimatedTime` and `modelSize` are fixed lookups on the
language alone: modelSize is "200 MB" for javascript and "1.2 GB" for
every other language (unknown ones included); estimatedTime is
"10-15 min" for rust, "8-12 min" for julia, and "5-10 min" for python and
javascript. -/
theorem analyzeRepository_fixed_time_and_size (repoUrl : String) (specs : DeviceSpecs) :
    ((specs.language = "javascript" →
        (analyzeRepository repoUrl specs).modelSize = "200 MB") ∧
     (specs.language ≠ "javascript" →
        (analyzeRepository repoUrl specs).modelSize = "1.2 GB")) ∧
    ((specs.language = "rust" →
        (analyzeRepository repoUrl specs).estimatedTime = "10-15 min") ∧
     (specs.language = "julia" →
        (analyzeRepository repoUrl specs).estimatedTime = "8-12 min") ∧
     (specs.language = "python" ∨ specs.language = "javascript" →
        (analyzeRepository repoUrl specs).estimatedTime = "5-10 min")) := by
  refine ⟨⟨fun h => ?_, fun h => ?_⟩, fun h => ?_, fun h => ?_, fun h => ?_⟩
  · simp [analyzeRepository, h]
  · simp [analyzeRepository, h]
  · simp [analyzeRepository, h]
  · simp [analyzeRepository, h]
  · rcases h with h | h <;> simp [analyzeRepository, h]

theorem analyzeRepository_fixed_time_and_size_witness :
    (analyzeRepository "https://github.com/user/repo"
        ⟨"javascript", "20", "ubuntu", "none", "16gb", "npm", false⟩).modelSize = "200 MB" :=
  (analyzeRepository_fixed_time_and_size "https://github.com/user/repo"
      ⟨"javascript", "20", "ubuntu", "none", "16gb", "npm", false⟩).1.1 rfl

/-- Claim C5, counterexample: the derived directory name does not strip
only a *trailing* ".git" suffix. On a final segment with ".git" in the
middle the code removes that first occurrence, while trailing-suffix
stripping would leave the segment unchanged. -/
theorem cloneDirName_not_trailing_strip :
    cloneDirName "https://github.com/user/my.gitrepo" ≠
      cloneDirNameSpecStated "https://github.com/user/my.gitrepo" := by
  decide

/-- Claim C5, amended: for every repoUrl the derived directory name is
the URL's final path segment with the *first occurrence* of ".git"
removed (wherever it occurs), defaulting to "repo" when the resulting
name is empty; on the spec's example and on a trailing ".git" URL this
gives "my-repo", and the empty URL gives "repo". -/
theorem cloneDirName_first_occurrence :
    (∀ repoUrl : String, cloneDirName repoUrl = cloneDirNameSpecAmended repoUrl) ∧
    cloneDirName "https://github.com/user/my-repo" = "my-repo" ∧
    cloneDirName "https://github.com/user/my-repo.git" = "my-repo" ∧
    cloneDirName "" = "repo" := by
  refine ⟨fun repoUrl => ?_, by decide, by decide, by decide⟩
  simp [cloneDirName, cloneDirNameSpecAmended, replaceFirstAux_eq_removeFirstMatch]

/-- Claim C6: selecting a language sets `version` and `packageManager`
back to the empty string and leaves `repoUrl`, `os`, `gpu`, `ram` and
`docker` unchanged (and stores the chosen language). -/
theorem handleLanguageChange_resets_version_pm (st : FormState) (value : String) :
    (handleLanguageChange st value).specs.language = value ∧
    (handleLanguageChange st value).specs.version = "" ∧
    (handleLanguageChange st value).specs.packageManager = "" ∧
    (handleLanguageChange st value).repoUrl = st.repoUrl ∧
    (handleLanguageChange st value).specs.os = st.specs.os ∧
    (handleLanguageChange st value).specs.gpu = st.specs.gpu ∧
    (handleLanguageChange st value).specs.ram = st.specs.ram ∧
    (handleLanguageChange st value).specs.docker = st.specs.docker := by
  simp [handleLanguageChange]

/-- Claim C7: the submit control is enabled exactly when `repoUrl`,
`language`, `version`, `os` and `ram` are all non-empty and the form is
not loading; `handleSubmit` invokes the analyzer exactly when those five
fields are non-empty; and `packageManager` and `gpu` have no influence on
the gating. -/
theorem submit_gating_iff (st : FormState) (isLoading : Bool) :
    (submitButtonDisabled st isLoading = false ↔
       (st.repoUrl ≠ "" ∧ st.specs.language ≠ "" ∧ st.specs.version ≠ "" ∧
        st.specs.os ≠ "" ∧ st.specs.ram ≠ "" ∧ isLoading = false)) ∧
    ((handleSubmit st).isSome ↔
       (st.repoUrl ≠ "" ∧ st.specs.language ≠ "" ∧ st.specs.version ≠ "" ∧
        st.specs.os ≠ "" ∧ st.specs.ram ≠ "")) ∧
    (∀ pm gpu : String,
       submitButtonDisabled
           { st with specs := { st.specs with packageManager := pm, gpu := gpu } }
           isLoading
         = submitButtonDisabled st isLoading) := by
  refine ⟨?_, ?_, fun pm gpu => rfl⟩
  · simp [submitButtonDisabled, isFormValid, and_assoc]
  · constructor
    · intro h
      by_contra hc
      simp only [handleSubmit] at h
      rw [if_neg] at h
      · simp at h
      · simp only [not_and_or] at hc
        rcases hc with hc | hc | hc | hc | hc <;> simp_all
    · intro h
      obtain ⟨h1, h2, h3, h4, h5⟩ := h
      simp [handleSubmit, h1, h2, h3, h4, h5]

theorem submit_gating_iff_witness :
    submitButtonDisabled
        ⟨"https://github.com/user/repo",
         ⟨"python", "3.10", "ubuntu", "none", "16gb", "", false⟩⟩ false = false :=
  (submit_gating_iff
      ⟨"https://github.com/user/repo",
       ⟨"python", "3.10", "ubuntu", "none", "16gb", "", false⟩⟩ false).1.mpr
    ⟨by decide, by decide, by decide, by decide, by decide, rfl⟩

/-- Claim C8, counterexample: the "r" case neither branches on
`packageManager` nor interpolates `version`: two submissions that differ
only in version (4.3 vs 4.1) and package manager (renv vs pak) return
identical bundles, so the r case has no packageManager-keyed command
variants and no version interpolation. -/
theorem analyzeRepository_r_ignores_pm_and_version :
    analyzeRepository "https://github.com/user/repo"
        ⟨"r", "4.3", "ubuntu", "none", "16gb", "renv", false⟩ =
      analyzeRepository "https://github.com/user/repo"
        ⟨"r", "4.1", "ubuntu", "none", "16gb", "pak", false⟩ := by
  rfl

/-- Claim C8, amended: only the python and javascript cases choose
between two command variants keyed on `packageManager` (conda vs
pip-style, yarn vs npm-style), python interpolating `version` into the
conda environment command and javascript into its first setup step; the
julia and rust cases interpolate `version` into their first setup step
but their commands do not depend on `packageManager`; the r case depends
on neither `packageManager` nor `version`. -/
theorem getLanguageConfig_pm_version_usage (u : String) (s : DeviceSpecs) :
    (s.language = "python" →
       (s.packageManager = "conda" →
          (analyzeRepository u s).venvCommand =
            "conda create -n hf-app python=" ++ s.version ++ "\nconda activate hf-app" ∧
          (analyzeRepository u s).installCommand =
            "conda install pytorch transformers gradio -c pytorch -c huggingface") ∧
       (s.packageManager ≠ "conda" →
          (analyzeRepository u s).venvCommand =
            "python -m venv hf-app\nsource hf-app/bin/activate  # On Windows: hf-app\\Scripts\\activate" ∧
          (analyzeRepository u s).installCommand =
            "pip install torch transformers gradio accelerate")) ∧
    (s.language = "javascript" →
       ((s.packageManager = "yarn" →
           (analyzeRepository u s).venvCommand = "yarn init -y" ∧
           (analyzeRepository u s).installCommand =
             "yarn add @huggingface/transformers @huggingface/hub express") ∧
        (s.packageManager ≠ "yarn" →
           (analyzeRepository u s).venvCommand = "npm init -y" ∧
           (analyzeRepository u s).installCommand =
             "npm install @huggingface/transformers @huggingface/hub express")) ∧
       (analyzeRepository u s).envSetup.head? =
         some ("Ensure Node.js " ++ s.version ++ " is installed")) ∧
    (s.language = "julia" →
       (analyzeRepository u s).envSetup.head? =
         some ("Ensure Julia " ++ s.version ++ " is installed") ∧
       ∀ pm : String,
         analyzeRepository u { s with packageManager := pm } = analyzeRepository u s) ∧
    (s.language = "rust" →
       (analyzeRepository u s).envSetup.head? =
         some ("Ensure Rust " ++ s.version ++ " is installed") ∧
       ∀ pm : String,
         analyzeRepository u { s with packageManager := pm } = analyzeRepository u s) ∧
    (s.language = "r" →
       ∀ v pm : String,
         analyzeRepository u { s with version := v, packageManager := pm } =
           analyzeRepository u s) := by
  obtain ⟨lang, ver, osv, gpuv, ramv, pmv, dkv⟩ := s
  refine ⟨fun hl => ?_, fun hl => ?_, fun hl => ?_, fun hl => ?_, fun hl => ?_⟩ <;>
    simp only at hl <;> subst hl
  · constructor
    · intro hp; simp only at hp; subst hp
      exact ⟨rfl, rfl⟩
    · intro hp
      have hb : (pmv == "conda") = false := by
        simp only at hp; simpa using hp
      constructor <;> simp [analyzeRepository, getLanguageConfig, hb]
  · refine ⟨⟨fun hp => ?_, fun hp => ?_⟩, rfl⟩
    · simp only at hp; subst hp; exact ⟨rfl, rfl⟩
    · have hb : (pmv == "yarn") = false := by
        simp only at hp; simpa using hp
      constructor <;> simp [analyzeRepository, getLanguageConfig, hb]
  · exact ⟨rfl, fun pm => rfl⟩
  · exact ⟨rfl, fun pm => rfl⟩
  · exact fun v pm => rfl

theorem getLanguageConfig_pm_version_usage_witness :
    (analyzeRepository "https://github.com/user/repo"
        ⟨"python", "3.11", "ubuntu", "none", "16gb", "conda", false⟩).venvCommand =
      "conda create -n hf-app python=" ++ "3.11" ++ "\nconda activate hf-app" :=
  ((getLanguageConfig_pm_version_usage "https://github.com/user/repo"
      ⟨"python", "3.11", "ubuntu", "none", "16gb", "conda", false⟩).1 rfl).1 rfl |>.1

/-- Claim C9: with the clipboard embedded as a capability outcome, a
successful copy immediately marks the label as copied, emits exactly the
success toast and schedules a clear after the fixed 2000 ms (after which
the indicator is cleared); a failed copy leaves the state unchanged (no
copied indicator is set), emits exactly the destructive error toast and
schedules nothing. -/
theorem copyToClipboard_success_failure (ok : Bool) (text label : String)
    (st : GuideState) :
    (ok = true →
       (copyToClipboard ok text label st).1.copiedCommand = some label ∧
       (copyToClipboard ok text label st).2.1 =
         [{ title := "Copied to clipboard",
            description := label ++ " command copied successfully",
            destructive := false }] ∧
       (copyToClipboard ok text label st).2.2 = some 2000 ∧
       (clearCopiedTimeout (copyToClipboard ok text label st).1).copiedCommand = none) ∧
    (ok = false →
       (copyToClipboard ok text label st).1 = st ∧
       (copyToClipboard ok text label st).2.1 =
         [{ title := "Failed to copy",
            description := "Could not copy to clipboard",
            destructive := true }] ∧
       (copyToClipboard ok text label st).2.2 = none) := by
  constructor <;> intro h <;> subst h <;>
    simp [copyToClipboard, clearCopiedTimeout]

theorem copyToClipboard_success_failure_witness :
    (copyToClipboard true "git clone repo" "Clone Repository" ⟨none⟩).1.copiedCommand =
      some "Clone Repository" :=
  ((copyToClipboard_success_failure true "git clone repo" "Clone Repository" ⟨none⟩).1
    rfl).1

/-- Claim C10: noninterference on unused inputs: two calls whose specs
agree on language, version and packageManager return equal bundles, even
when repoUrl, os, gpu, ram and docker all differ. -/
theorem analyzeRepository_noninterference (u1 u2 : String) (s1 s2 : DeviceSpecs)
    (hl : s1.language = s2.language) (hv : s1.version = s2.version)
    (hp : s1.packageManager = s2.packageManager) :
    analyzeRepository u1 s1 = analyzeRepository u2 s2 := by
  obtain ⟨l1, v1, o1, g1, r1, p1, d1⟩ := s1
  obtain ⟨l2, v2, o2, g2, r2, p2, d2⟩ := s2
  simp only at hl hv hp
  subst hl; subst hv; subst hp
  rfl

theorem analyzeRepository_noninterference_witness :
    analyzeRepository "https://github.com/a/one"
        ⟨"python", "3.10", "ubuntu", "none", "16gb", "pip", false⟩ =
      analyzeRepository "https://example.org/b/two"
        ⟨"python", "3.10", "macos", "apple-m1", "64gb", "pip", true⟩ :=
  analyzeRepository_noninterference "https://github.com/a/one"
    "https://example.org/b/two"
    ⟨"python", "3.10", "ubuntu", "none", "16gb", "pip", false⟩
    ⟨"python", "3.10", "macos", "apple-m1", "64gb", "pip", true⟩ rfl rfl rfl
